import Mathlib

/-!
# Verification of the Razorpay S2S payment relay

Shallow embedding of the payment-request orchestration and
response-normalization logic of the repository.  The repository contains two
parallel implementations of the same HTTP surface:

* an Express server (`server.js`, here called the *express* handlers), with a
  card flow (`POST /api/create-payment`) and an Apple Pay flow
  (`POST /api/create-applepay-payment`); and
* two serverless functions (`api/create-payment.js` and the Apple Pay
  variant, here called the *serverless* handlers).

JavaScript values that can appear in a parsed JSON body are modelled by
`JsonVal`; a field that is absent from an object (JavaScript `undefined`,
which `JSON.stringify` drops) is modelled by `Option` at the use sites.
Property access on `null` throws in JavaScript and is caught by each
handler's catch-all; this is modelled by `jsGet` returning `Except`.
-/

set_option autoImplicit false

namespace Razorpay

/-- A JSON value as produced by `JSON.parse`.  `null` is a real value
(property access on it throws); absence of a field is `Option.none` at use
sites, never a `JsonVal`. -/
inductive JsonVal where
  | null
  | bool (b : Bool)
  | num (n : Int)
  | str (s : String)
  | arr (elems : List JsonVal)
  | obj (fields : List (String × JsonVal))

/-- JavaScript truthiness of a defined value. -/
def truthy : JsonVal → Bool
  | .null => false
  | .bool b => b
  | .num n => n != 0
  | .str s => s != ""
  | .arr _ => true
  | .obj _ => true

/-- JavaScript truthiness of a possibly-undefined value (`undefined` is
falsy). -/
def truthyO : Option JsonVal → Bool
  | none => false
  | some v => truthy v

/-- First-match association lookup, as JavaScript property access on a plain
object (keys are unique in parsed JSON, so first match is the match). -/
def lookupKV : List (String × JsonVal) → String → Option JsonVal
  | [], _ => none
  | (k', v) :: rest, k => if k' = k then some v else lookupKV rest k

/-- Property access that cannot throw: on a non-object it yields
`undefined` (`none`).  Matches JavaScript on every `JsonVal` except `null`,
where JavaScript throws instead; use `jsGet` where the source can reach a
`null` receiver. -/
def getField : JsonVal → String → Option JsonVal
  | .obj kvs, k => lookupKV kvs k
  | _, _ => none

/-- Property access as JavaScript performs it: reading a property of `null`
throws a `TypeError` (surfaced through the handler catch block); on any
other non-object value the result is `undefined`. -/
def jsGet : JsonVal → String → Except String (Option JsonVal)
  | .null, k => .error ("Cannot read properties of null (reading " ++ k ++ ")")
  | .obj kvs, k => .ok (lookupKV kvs k)
  | _, _ => .ok none

/-- The spread-update `\x7b...base, k: v\x7d`: replaces the binding of `k` in
place if present, else appends it. -/
def setKV : List (String × JsonVal) → String → JsonVal → List (String × JsonVal)
  | [], k, v => [(k, v)]
  | (k', v') :: rest, k, v =>
    if k' = k then (k, v) :: rest else (k', v') :: setKV rest k v

/-- Fields of a value under object spread; spreading a non-object
contributes no fields. -/
def jsonFields : JsonVal → List (String × JsonVal)
  | .obj kvs => kvs
  | _ => []

/-- JavaScript `\x7b...base, k: v\x7d`. -/
def spreadSet (base : JsonVal) (k : String) (v : JsonVal) : JsonVal :=
  .obj (setKV (jsonFields base) k v)

/-- A field of a constructed object whose value may be `undefined`;
`JSON.stringify` drops the key in that case, so the wire object simply
omits it. -/
def optField (k : String) (v : Option JsonVal) : List (String × JsonVal) :=
  match v with
  | some x => [(k, x)]
  | none => []

/-- A field added only under a truthiness guard
(`if (x) payload.k = x`). -/
def truthyField (k : String) (v : Option JsonVal) : List (String × JsonVal) :=
  match v with
  | some x => if truthy x then [(k, x)] else []
  | none => []

/-- JavaScript `x || d` for a possibly-undefined `x`. -/
def jsOr (v : Option JsonVal) (dflt : JsonVal) : JsonVal :=
  match v with
  | some x => if truthy x then x else dflt
  | none => dflt

/-! ## Character-level scanners for the regular expressions in the source -/

/-- The double-quote character that terminates the captured runs below. -/
def quoteChar : Char := '"'

/-- The path separator used by the payment-id capture. -/
def slashChar : Char := '/'

/-- Does `pat` occur at the very start of `s`? -/
def isPrefixSeq : List Char → List Char → Bool
  | [], _ => true
  | _ :: _, [] => false
  | p :: ps, c :: cs => p == c && isPrefixSeq ps cs

/-- Does `pat` occur anywhere in `s`? -/
def containsSeq (pat : List Char) : List Char → Bool
  | [] => pat.isEmpty
  | c :: cs => isPrefixSeq pat (c :: cs) || containsSeq pat (cs)

/-- The literal `url=` of the redirect-extraction patterns. -/
def urlPat : List Char := "url=".toList

/-- `text.match(/url=([^"]+)/)`: leftmost occurrence of the literal `url=`
followed by at least one non-quote character; the capture is the maximal
run of non-quote characters. -/
def scanUrl : List Char → Option (List Char)
  | [] => none
  | c :: cs =>
    if isPrefixSeq urlPat (c :: cs) then
      let run := ((c :: cs).drop 4).takeWhile (fun ch => ch != quoteChar)
      if run.isEmpty then scanUrl cs else some run
    else scanUrl cs

/-- `text.match(/url=([^"]+)"/)` (serverless variant): as `scanUrl`, but the
captured run must be terminated by a double quote. -/
def scanUrlQuoted : List Char → Option (List Char)
  | [] => none
  | c :: cs =>
    if isPrefixSeq urlPat (c :: cs) then
      let rest := (c :: cs).drop 4
      let run := rest.takeWhile (fun ch => ch != quoteChar)
      if run.isEmpty || ((rest.dropWhile (fun ch => ch != quoteChar)).head? != some quoteChar) then
        scanUrlQuoted cs
      else some run
    else scanUrlQuoted cs

/-- `url.match(/payments\/([^/]+)/)`: leftmost `payments/` followed by a
nonempty maximal run of non-slash characters. -/
def scanPaymentsId : List Char → Option (List Char)
  | [] => none
  | c :: cs =>
    if isPrefixSeq "payments/".toList (c :: cs) then
      let run := ((c :: cs).drop 9).takeWhile (fun ch => ch != slashChar)
      if run.isEmpty then scanPaymentsId cs else some run
    else scanPaymentsId cs

/-- Character class `[a-zA-Z0-9_]` of the legacy payment-id pattern. -/
def isIdChar (ch : Char) : Bool :=
  ch.isAlphanum || ch == '_'

/-- `text.match(/razorpay_payment_id[=:]([a-zA-Z0-9_]+)/)`. -/
def scanRzpId : List Char → Option (List Char)
  | [] => none
  | c :: cs =>
    if isPrefixSeq "razorpay_payment_id".toList (c :: cs) then
      match (c :: cs).drop 19 with
      | sep :: rest =>
        if sep == '=' || sep == ':' then
          let run := rest.takeWhile isIdChar
          if run.isEmpty then scanRzpId cs else some run
        else scanRzpId cs
      | [] => scanRzpId cs
    else scanRzpId cs

/-- String-level wrapper of `scanUrl`. -/
def matchUrlS (s : String) : Option String :=
  (scanUrl s.toList).map String.mk

/-- String-level wrapper of `scanUrlQuoted`. -/
def matchUrlQuotedS (s : String) : Option String :=
  (scanUrlQuoted s.toList).map String.mk

/-- String-level wrapper of `scanPaymentsId`. -/
def matchPaymentsIdS (s : String) : Option String :=
  (scanPaymentsId s.toList).map String.mk

/-- String-level wrapper of `scanRzpId`. -/
def matchRzpIdS (s : String) : Option String :=
  (scanRzpId s.toList).map String.mk

/-- `s.substring(0, n)`. -/
def strTake (s : String) (n : Nat) : String :=
  String.mk (s.toList.take n)

/-! ## Credential resolution -/

/-- One entry of the `RAZORPAY_CONFIGS` table. -/
structure RegionConfig where
  keyId : String
  keySecret : String
  currency : String

/-- The process environment: one identifier/secret pair per region.  An
unset variable is the empty string (the express server defaults unset
variables to the empty string; in the serverless handlers an unset variable
is `undefined`, which the `!config.keyId` style checks treat exactly like
the empty string). -/
structure RazorpayEnv where
  keyIdMY : String
  keySecretMY : String
  keyIdSG : String
  keySecretSG : String
  keyIdUS : String
  keySecretUS : String
  keyIdIN : String
  keySecretIN : String

/-- The `RAZORPAY_CONFIGS` literal: the four known regions. -/
def razorpayConfigs (e : RazorpayEnv) : List (String × RegionConfig) :=
  [("MY", ⟨e.keyIdMY, e.keySecretMY, "MYR"⟩),
   ("SG", ⟨e.keyIdSG, e.keySecretSG, "SGD"⟩),
   ("US", ⟨e.keyIdUS, e.keySecretUS, "USD"⟩),
   ("IN", ⟨e.keyIdIN, e.keySecretIN, "INR"⟩)]

/-- Region-config lookup. -/
def lookupRegion (e : RazorpayEnv) : String → Option RegionConfig
  | c => (razorpayConfigs e).lookup c

/-- Express `getConfig` / `getAuthHeader`: throws unless the country is a
key of the table and its secret is truthy.  Note that the key identifier is
NOT checked. -/
def getConfigExpress (e : RazorpayEnv) (country : String) : Except String RegionConfig :=
  match lookupRegion e country with
  | none => .error ("Invalid or unconfigured country: " ++ country)
  | some c =>
    if c.keySecret = "" then .error ("Invalid or unconfigured country: " ++ country)
    else .ok c

/-- Serverless config check: `!config || !config.keyId || !config.keySecret`
fails with HTTP 400; both identifier and secret must be non-empty. -/
def resolveServerless (e : RazorpayEnv) (country : String) : Option RegionConfig :=
  match lookupRegion e country with
  | none => none
  | some c => if c.keyId = "" ∨ c.keySecret = "" then none else some c

/-- JavaScript object indexing `RAZORPAY_CONFIGS[country]` coerces the index
to a string; a non-string request field can never equal one of the
two-letter region keys, so it is mapped to a marker that is not a key. -/
def jsKey : Option JsonVal → String
  | some (.str s) => s
  | _ => "[coerced non-string]"

/-! ## Raw gateway responses and handler outputs -/

/-- The raw payment-creation response: status, declared content type, and
the body, available both as parsed JSON (what `.json()` yields) and as text
(what `.text()` yields); each handler reads exactly one of the two,
selected by the content type. -/
structure RawPaymentResponse where
  status : Nat
  contentType : Option String
  jsonBody : JsonVal
  textBody : String

/-- An order-creation response (`await orderResponse.json()` is always
performed). -/
structure OrderResponse where
  status : Nat
  body : JsonVal

/-- `fetch` `Response.ok`: status in [200, 300). -/
def respOk (s : Nat) : Bool :=
  decide (200 ≤ s) && decide (s < 300)

/-- `contentType && contentType.includes('application/json')`. -/
def ctIsJson : Option String → Bool
  | none => false
  | some s => containsSeq "application/json".toList s.toList

/-- What the handler sends back: HTTP status plus JSON body. -/
structure HttpOut where
  status : Nat
  body : JsonVal

/-- Express catch-all: any thrown error becomes a 500 `PAYMENT_FAILED`
response carrying the error message. -/
def paymentFailed (msg : String) : HttpOut :=
  ⟨500, .obj [("error", .obj [("code", .str "PAYMENT_FAILED"),
                              ("description", .str msg)])]⟩

/-- Serverless catch-all: any thrown error becomes a 500 response carrying
the error message. -/
def serverlessCatch (msg : String) : HttpOut :=
  ⟨500, .obj [("error", .obj [("description", .str msg)])]⟩

/-- Predicate of `next.find(action => action.action === 'redirect')`. -/
def isRedirectAction (a : JsonVal) : Bool :=
  match getField a "action" with
  | some (.str s) => s == "redirect"
  | _ => false

/-- `next.find(action => action.action === 'redirect')`: the callback reads
`.action`, which throws on a `null` element encountered before the first
redirect entry. -/
def findRedirectAction : List JsonVal → Except String (Option JsonVal)
  | [] => .ok none
  | a :: rest =>
    match a with
    | .null => .error "Cannot read properties of null (reading action)"
    | _ => if isRedirectAction a then .ok (some a) else findRedirectAction rest

/-! ## The four response-normalization paths

Each function is the portion of a handler from the content-type check to the
response, with the throwing property accesses routed through that handler's
catch block. -/

/-- Express card handler, from the content-type check on.  The JSON branch
performs NO redirect extraction: it checks `paymentResponse.ok` and either
propagates the raw status and payload or replies 200 with the payload
spread-merged with the order.  The HTML branch extracts `url=([^"]+)` and a
`payments/([^/]+)` path segment (payment id `null` if absent). -/
def expressCardNormalize (orderData : JsonVal) (r : RawPaymentResponse) : HttpOut :=
  if ctIsJson r.contentType then
    if respOk r.status then
      match jsGet r.jsonBody "id" with
      | .error msg => paymentFailed msg
      | .ok _ => ⟨200, spreadSet r.jsonBody "order" orderData⟩
    else ⟨r.status, r.jsonBody⟩
  else
    match matchUrlS r.textBody with
    | some url =>
      let pid : JsonVal :=
        match matchPaymentsIdS url with
        | some p => .str p
        | none => .null
      ⟨200, .obj ([("id", pid), ("status", .str "authorized")] ++
        optField "order_id" (getField orderData "id") ++
        [("authentication", .obj [("authentication_url", .str url)]),
         ("requires_3ds", .bool true)])⟩
    | none =>
      ⟨r.status, .obj [("error", .obj
        [("code", .str "INVALID_RESPONSE"),
         ("description", .str "Received HTML response but could not extract authentication URL"),
         ("details", .str (strTake r.textBody 200))])]⟩

/-- Express Apple Pay handler, from the content-type check on.  The JSON
branch first tries the `next` redirect extraction; without a redirect it
falls through to the `paymentResponse.ok` check and then the order-merged
success reply. -/
def expressApNormalize (orderData : JsonVal) (r : RawPaymentResponse) : HttpOut :=
  if ctIsJson r.contentType then
    let fallback : HttpOut :=
      if respOk r.status then ⟨200, spreadSet r.jsonBody "order" orderData⟩
      else ⟨r.status, r.jsonBody⟩
    match jsGet r.jsonBody "next" with
    | .error msg => paymentFailed msg
    | .ok nextv =>
      match nextv with
      | some (.arr xs) =>
        match findRedirectAction xs with
        | .error msg => paymentFailed msg
        | .ok (some ra) =>
          if truthyO (getField ra "url") then
            ⟨200, .obj (optField "id" (getField r.jsonBody "razorpay_payment_id") ++
              [("status", .str "created")] ++
              optField "order_id" (getField orderData "id") ++
              [("apple_pay_url", (getField ra "url").getD .null),
               ("requires_apple_pay", .bool true),
               ("message", .str "Redirect user to apple_pay_url to complete payment")])⟩
          else fallback
        | .ok none => fallback
      | _ => fallback
  else
    match matchUrlS r.textBody with
    | some url =>
      let pid : JsonVal :=
        match matchPaymentsIdS url with
        | some p => .str p
        | none => .null
      ⟨200, .obj ([("id", pid), ("status", .str "created")] ++
        optField "order_id" (getField orderData "id") ++
        [("apple_pay_url", .str url),
         ("requires_apple_pay", .bool true),
         ("message", .str "Redirect user to apple_pay_url to complete payment")])⟩
    | none =>
      ⟨r.status, .obj [("error", .obj
        [("code", .str "INVALID_RESPONSE"),
         ("description", .str "Received HTML response but could not extract Apple Pay URL"),
         ("details", .str (strTake r.textBody 200))])]⟩

/-- Serverless card handler, from the content-type check on.  The JSON
branch extracts a `next` redirect and otherwise replies 200 with the payload
as-is; there is NO status check and NO order merge.  The HTML branch needs
`url=([^"]+)"` and takes the payment id from a `razorpay_payment_id[=:]`
pattern, with sentinel `unknown`; parse failure is a fixed 500. -/
def serverlessCardNormalize (r : RawPaymentResponse) : HttpOut :=
  if ctIsJson r.contentType then
    match jsGet r.jsonBody "next" with
    | .error msg => serverlessCatch msg
    | .ok nextv =>
      match nextv with
      | some (.arr xs) =>
        match findRedirectAction xs with
        | .error msg => serverlessCatch msg
        | .ok (some ra) =>
          if truthyO (getField ra "url") then
            ⟨200, .obj (optField "id" (getField r.jsonBody "razorpay_payment_id") ++
              [("authentication", .obj
                [("authentication_url", (getField ra "url").getD .null)])])⟩
          else ⟨200, r.jsonBody⟩
        | .ok none => ⟨200, r.jsonBody⟩
      | _ => ⟨200, r.jsonBody⟩
  else
    match matchUrlQuotedS r.textBody with
    | some url =>
      let pid : JsonVal :=
        match matchRzpIdS r.textBody with
        | some p => .str p
        | none => .str "unknown"
      ⟨200, .obj [("id", pid),
        ("authentication", .obj [("authentication_url", .str url)])]⟩
    | none =>
      ⟨500, .obj [("error", .obj
        [("description", .str "Failed to parse payment response")])]⟩

/-- Serverless Apple Pay handler, from the content-type check on;
isomorphic to the serverless card normalization but with the
`apple_pay_url` field names. -/
def serverlessApNormalize (r : RawPaymentResponse) : HttpOut :=
  if ctIsJson r.contentType then
    match jsGet r.jsonBody "next" with
    | .error msg => serverlessCatch msg
    | .ok nextv =>
      match nextv with
      | some (.arr xs) =>
        match findRedirectAction xs with
        | .error msg => serverlessCatch msg
        | .ok (some ra) =>
          if truthyO (getField ra "url") then
            ⟨200, .obj (optField "id" (getField r.jsonBody "razorpay_payment_id") ++
              [("apple_pay_url", (getField ra "url").getD .null),
               ("requires_apple_pay", .bool true)])⟩
          else ⟨200, r.jsonBody⟩
        | .ok none => ⟨200, r.jsonBody⟩
      | _ => ⟨200, r.jsonBody⟩
  else
    match matchUrlQuotedS r.textBody with
    | some url =>
      let pid : JsonVal :=
        match matchRzpIdS r.textBody with
        | some p => .str p
        | none => .str "unknown"
      ⟨200, .obj [("id", pid),
        ("apple_pay_url", .str url),
        ("requires_apple_pay", .bool true)]⟩
    | none =>
      ⟨500, .obj [("error", .obj
        [("description", .str "Failed to parse Apple Pay response")])]⟩

/-! ## Orchestrator flows

Each flow takes the inbound request fields, the order-creation response and
the payment-creation response, and records which outbound gateway calls were
issued and, when the payment call happened, the exact wire payload
(`JSON.stringify` drops `undefined`-valued keys, so absent request fields
are absent from the wire object). -/

/-- Inbound body of `POST /api/create-payment`; every field may be absent. -/
structure CardRequest where
  amount : Option JsonVal
  currency : Option JsonVal
  country : Option JsonVal
  contact : Option JsonVal
  email : Option JsonVal
  method : Option JsonVal
  card : Option JsonVal
  authentication : Option JsonVal
  browser : Option JsonVal
  ip : Option JsonVal
  referer : Option JsonVal
  user_agent : Option JsonVal
  device_fingerprint : Option JsonVal

/-- Inbound body of the Apple Pay flows. -/
structure ApRequest where
  amount : Option JsonVal
  currency : Option JsonVal
  country : Option JsonVal
  contact : Option JsonVal
  email : Option JsonVal

/-- Result of running a flow: the HTTP reply, whether each gateway call was
issued, and the payment-creation wire payload when that call happened. -/
structure FlowResult where
  out : HttpOut
  orderCalled : Bool
  paymentCalled : Bool
  paymentPayload : Option JsonVal

/-- The wire payload of a flow result (`null` when the payment call never
happened). -/
def payloadOf (fr : FlowResult) : JsonVal :=
  fr.paymentPayload.getD .null

/-- Express card validation:
`if (!amount || !currency || !method || !card || !country)`. -/
def cardValid (req : CardRequest) : Bool :=
  truthyO req.amount && truthyO req.currency && truthyO req.method &&
    truthyO req.card && truthyO req.country

/-- Express Apple Pay validation: `if (!amount || !currency || !country)`. -/
def apValid (req : ApRequest) : Bool :=
  truthyO req.amount && truthyO req.currency && truthyO req.country

/-- The 400 reply of the express card validation. -/
def badRequestCard : HttpOut :=
  ⟨400, .obj [("error", .obj [("code", .str "BAD_REQUEST"),
    ("description", .str "Missing required fields: amount, currency, country, method, card")])]⟩

/-- The 400 reply of the express Apple Pay validation. -/
def badRequestAp : HttpOut :=
  ⟨400, .obj [("error", .obj [("code", .str "BAD_REQUEST"),
    ("description", .str "Missing required fields: amount, currency, country")])]⟩

/-- The 400 reply of the serverless config check. -/
def invalidCountry : HttpOut :=
  ⟨400, .obj [("error", .obj
    [("description", .str "Invalid country or missing credentials")])]⟩

/-- The two-digit expiry-year shim of the express card handler:
`if (expiryYear.length === 2) expiryYear = '20' + expiryYear`.
Reading `.length` of an absent or `null` field throws; on a non-string the
`.length` is `undefined`, so the value passes through unchanged. -/
def expiryShim : Option JsonVal → Except String JsonVal
  | none => .error "Cannot read properties of undefined (reading length)"
  | some .null => .error "Cannot read properties of null (reading length)"
  | some (.str s) => .ok (.str (if s.length = 2 then "20" ++ s else s))
  | some v => .ok v

/-- The express card handler logs `card.number.slice(-4)` before the
payment call: `.slice` exists on strings (and arrays); on an absent or
`null` field the read throws, on another value the call throws. -/
def cardNumberCheck : Option JsonVal → Except String Unit
  | some (.str _) => .ok ()
  | some (.arr _) => .ok ()
  | none => .error "Cannot read properties of undefined (reading slice)"
  | some .null => .error "Cannot read properties of null (reading slice)"
  | some _ => .error "card.number.slice is not a function"

/-- The express card payment payload.  `contact`/`email` and the card
sub-fields are written unconditionally (absent values vanish at
stringify-time); `authentication`, `browser`, `device_fingerprint`, `ip`,
`referer` and `user_agent` are added only under a truthiness guard. -/
def expressCardPayload (req : CardRequest) (oid : Option JsonVal) (ey : JsonVal) : JsonVal :=
  let card := req.card.getD .null
  .obj (optField "amount" req.amount ++ optField "currency" req.currency ++
    optField "order_id" oid ++ optField "method" req.method ++
    optField "contact" req.contact ++ optField "email" req.email ++
    [("card", .obj (optField "number" (getField card "number") ++
      optField "name" (getField card "name") ++
      optField "expiry_month" (getField card "expiry_month") ++
      [("expiry_year", ey)] ++
      optField "cvv" (getField card "cvv")))] ++
    truthyField "authentication" req.authentication ++
    truthyField "browser" req.browser ++
    truthyField "device_fingerprint" req.device_fingerprint ++
    truthyField "ip" req.ip ++
    truthyField "referer" req.referer ++
    truthyField "user_agent" req.user_agent)

/-- Express `POST /api/create-payment`: validate, resolve credentials
(throwing resolution surfaces as a 500 through the catch block, before the
order call), create the order (non-ok propagates verbatim), read
`orderData.id`, run the expiry shim and the card-number log access (both
can throw, after the order call and before the payment call), then issue
the payment call and normalize its response. -/
def expressCardFlow (e : RazorpayEnv) (req : CardRequest)
    (oResp : OrderResponse) (pResp : RawPaymentResponse) : FlowResult :=
  if cardValid req then
    match getConfigExpress e (jsKey req.country) with
    | .error msg => ⟨paymentFailed msg, false, false, none⟩
    | .ok _ =>
      if respOk oResp.status then
        match jsGet oResp.body "id" with
        | .error msg => ⟨paymentFailed msg, true, false, none⟩
        | .ok oid =>
          let card := req.card.getD .null
          match expiryShim (getField card "expiry_year") with
          | .error msg => ⟨paymentFailed msg, true, false, none⟩
          | .ok ey =>
            match cardNumberCheck (getField card "number") with
            | .error msg => ⟨paymentFailed msg, true, false, none⟩
            | .ok _ =>
              ⟨expressCardNormalize oResp.body pResp, true, true,
                some (expressCardPayload req oid ey)⟩
      else ⟨⟨oResp.status, oResp.body⟩, true, false, none⟩
  else ⟨badRequestCard, false, false, none⟩

/-- The serverless card payment payload: all fields written
unconditionally except `device_fingerprint` (truthiness guard); the card
object is forwarded verbatim, with no expiry shim. -/
def serverlessCardPayload (req : CardRequest) (oid : Option JsonVal) : JsonVal :=
  .obj (optField "amount" req.amount ++ optField "currency" req.currency ++
    optField "order_id" oid ++ optField "method" req.method ++
    optField "card" req.card ++ optField "contact" req.contact ++
    optField "email" req.email ++
    optField "authentication" req.authentication ++
    optField "browser" req.browser ++ optField "ip" req.ip ++
    optField "referer" req.referer ++ optField "user_agent" req.user_agent ++
    truthyField "device_fingerprint" req.device_fingerprint)

/-- Serverless `api/create-payment.js`: no field validation; config check
replies 400 before any gateway call; order failure propagates verbatim;
then the payment call is issued and its response normalized. -/
def serverlessCardFlow (e : RazorpayEnv) (req : CardRequest)
    (oResp : OrderResponse) (pResp : RawPaymentResponse) : FlowResult :=
  match resolveServerless e (jsKey req.country) with
  | none => ⟨invalidCountry, false, false, none⟩
  | some _ =>
    if respOk oResp.status then
      match jsGet oResp.body "id" with
      | .error msg => ⟨serverlessCatch msg, true, false, none⟩
      | .ok oid =>
        ⟨serverlessCardNormalize pResp, true, true,
          some (serverlessCardPayload req oid)⟩
    else ⟨⟨oResp.status, oResp.body⟩, true, false, none⟩

/-- The express Apple Pay payment payload: `contact` and `email` fall back
to placeholder defaults through `||`, so any falsy caller value (absent,
empty string, 0, false, null) is replaced. -/
def expressApPayload (req : ApRequest) (oid : Option JsonVal) : JsonVal :=
  .obj (optField "amount" req.amount ++ optField "currency" req.currency ++
    optField "order_id" oid ++
    [("method", .str "card"),
     ("contact", jsOr req.contact (.str "+60123456789")),
     ("email", jsOr req.email (.str "applepay@example.com")),
     ("app", .obj [("name", .str "apple_pay")])])

/-- Express `POST /api/create-applepay-payment`. -/
def expressApFlow (e : RazorpayEnv) (req : ApRequest)
    (oResp : OrderResponse) (pResp : RawPaymentResponse) : FlowResult :=
  if apValid req then
    match getConfigExpress e (jsKey req.country) with
    | .error msg => ⟨paymentFailed msg, false, false, none⟩
    | .ok _ =>
      if respOk oResp.status then
        match jsGet oResp.body "id" with
        | .error msg => ⟨paymentFailed msg, true, false, none⟩
        | .ok oid =>
          ⟨expressApNormalize oResp.body pResp, true, true,
            some (expressApPayload req oid)⟩
      else ⟨⟨oResp.status, oResp.body⟩, true, false, none⟩
  else ⟨badRequestAp, false, false, none⟩

/-- The serverless Apple Pay payment payload: `contact` and `email` are
forwarded verbatim, with NO placeholder defaults (absent fields are simply
omitted from the wire object). -/
def serverlessApPayload (req : ApRequest) (oid : Option JsonVal) : JsonVal :=
  .obj (optField "amount" req.amount ++ optField "currency" req.currency ++
    optField "order_id" oid ++
    [("method", .str "card"),
     ("app", .obj [("name", .str "apple_pay")])] ++
    optField "contact" req.contact ++ optField "email" req.email)

/-- Serverless Apple Pay handler flow. -/
def serverlessApFlow (e : RazorpayEnv) (req : ApRequest)
    (oResp : OrderResponse) (pResp : RawPaymentResponse) : FlowResult :=
  match resolveServerless e (jsKey req.country) with
  | none => ⟨invalidCountry, false, false, none⟩
  | some _ =>
    if respOk oResp.status then
      match jsGet oResp.body "id" with
      | .error msg => ⟨serverlessCatch msg, true, false, none⟩
      | .ok oid =>
        ⟨serverlessApNormalize pResp, true, true,
          some (serverlessApPayload req oid)⟩
    else ⟨⟨oResp.status, oResp.body⟩, true, false, none⟩

/-! ## Basic lemmas about the embedding -/

theorem lookupKV_optField_ne (k k' : String) (v : Option JsonVal)
    (rest : List (String × JsonVal)) (h : k ≠ k') :
    lookupKV (optField k v ++ rest) k' = lookupKV rest k' := by
  cases v <;> simp [optField, lookupKV, h]

theorem lookupKV_truthyField_ne (k k' : String) (v : Option JsonVal)
    (rest : List (String × JsonVal)) (h : k ≠ k') :
    lookupKV (truthyField k v ++ rest) k' = lookupKV rest k' := by
  cases v with
  | none => simp [truthyField]
  | some x =>
    by_cases hx : truthy x = true <;> simp [truthyField, lookupKV, h, hx]

theorem lookupKV_optField_self (k : String) (v : Option JsonVal)
    (rest : List (String × JsonVal)) (hrest : lookupKV rest k = none) :
    lookupKV (optField k v ++ rest) k = v := by
  cases v <;> simp [optField, lookupKV, hrest]

theorem lookupKV_optField_ne_nil (k k' : String) (v : Option JsonVal) (h : k ≠ k') :
    lookupKV (optField k v) k' = none := by
  cases v <;> simp [optField, lookupKV, h]

theorem lookupKV_truthyField_ne_nil (k k' : String) (v : Option JsonVal) (h : k ≠ k') :
    lookupKV (truthyField k v) k' = none := by
  cases v with
  | none => simp [truthyField, lookupKV]
  | some x =>
    by_cases hx : truthy x = true <;> simp [truthyField, lookupKV, h, hx]

theorem lookupKV_optField_self_nil (k : String) (v : Option JsonVal) :
    lookupKV (optField k v) k = v := by
  cases v <;> simp [optField, lookupKV]

theorem lookupKV_setKV_self (l : List (String × JsonVal)) (k : String) (v : JsonVal) :
    lookupKV (setKV l k v) k = some v := by
  induction l with
  | nil => simp [setKV, lookupKV]
  | cons p rest ih =>
    by_cases h : p.1 = k <;> simp [setKV, lookupKV, h, ih]

theorem lookupKV_setKV_ne (l : List (String × JsonVal)) (k k' : String)
    (v : JsonVal) (h : k' ≠ k) :
    lookupKV (setKV l k v) k' = lookupKV l k' := by
  have h' : ¬k = k' := fun hk => h hk.symm
  induction l with
  | nil => simp [setKV, lookupKV, h']
  | cons p rest ih =>
    by_cases hp : p.1 = k
    · simp [setKV, lookupKV, hp, h']
    · simp [setKV, lookupKV, hp, ih]

/-- Fields of the spread-merge are looked up in the base object except at
the overriding key. -/
theorem getField_spreadSet_self (base : JsonVal) (k : String) (v : JsonVal) :
    getField (spreadSet base k v) k = some v := by
  simp [spreadSet, getField, lookupKV_setKV_self]

theorem getField_spreadSet_ne (base : JsonVal) (k k' : String) (v : JsonVal)
    (h : k' ≠ k) (kvs : List (String × JsonVal)) (hb : base = .obj kvs) :
    getField (spreadSet base k v) k' = getField base k' := by
  subst hb
  simp [spreadSet, getField, jsonFields, lookupKV_setKV_ne _ _ _ _ h]

/-- Successful property access agrees with the throw-free accessor. -/
theorem jsGet_of_getField (b : JsonVal) (k : String) (x : JsonVal)
    (h : getField b k = some x) : jsGet b k = .ok (some x) := by
  cases b <;> simp_all [getField, jsGet]

theorem scanUrl_eq_none_of_not_contains (s : List Char)
    (h : containsSeq urlPat s = false) : scanUrl s = none := by
  induction s with
  | nil => rfl
  | cons c cs ih =>
    unfold containsSeq at h
    rw [Bool.or_eq_false_iff] at h
    rw [scanUrl, if_neg]
    · exact ih h.2
    · simp [h.1]

theorem scanUrlQuoted_eq_none_of_not_contains (s : List Char)
    (h : containsSeq urlPat s = false) : scanUrlQuoted s = none := by
  induction s with
  | nil => rfl
  | cons c cs ih =>
    unfold containsSeq at h
    rw [Bool.or_eq_false_iff] at h
    rw [scanUrlQuoted, if_neg]
    · exact ih h.2
    · simp [h.1]

/-- The 200-character truncation is within the 200 to 500 character window
of the specification. -/
theorem strTake_length_le (s : String) (n : Nat) : (strTake s n).length ≤ n := by
  have hlen : (strTake s n).length = (s.toList.take n).length := rfl
  rw [hlen, List.length_take]
  omega

/-! ## Concrete data used by witnesses and counterexamples -/

/-- A fully configured environment. -/
def envDemo : RazorpayEnv :=
  ⟨"rzp_live_my", "secret_my", "rzp_live_sg", "secret_sg",
   "rzp_live_us", "secret_us", "rzp_live_in", "secret_in"⟩

/-- An environment whose MY region has a secret but NO key identifier. -/
def envIdMissing : RazorpayEnv :=
  ⟨"", "secret_my", "", "", "", "", "", ""⟩

/-- A well-formed inbound card object with a two-digit expiry year. -/
def cardDemo : JsonVal :=
  .obj [("number", .str "4111111111111111"), ("name", .str "Test User"),
        ("expiry_month", .str "12"), ("expiry_year", .str "27"),
        ("cvv", .str "123")]

/-- A well-formed card request for region IN. -/
def cardReqDemo : CardRequest :=
  ⟨some (.num 1000), some (.str "INR"), some (.str "IN"),
   some (.str "+911234567890"), some (.str "test@example.com"),
   some (.str "card"), some cardDemo,
   none, none, none, none, none, none⟩

/-- A card request for the unknown region FR. -/
def cardReqFR : CardRequest :=
  ⟨some (.num 1000), some (.str "EUR"), some (.str "FR"),
   some (.str "+33123456789"), some (.str "test@example.com"),
   some (.str "card"), some cardDemo,
   none, none, none, none, none, none⟩

/-- A card request whose card object lacks `expiry_year`. -/
def cardReqNoExpiry : CardRequest :=
  ⟨some (.num 1000), some (.str "INR"), some (.str "IN"),
   some (.str "+911234567890"), some (.str "test@example.com"),
   some (.str "card"),
   some (.obj [("number", .str "4111111111111111"), ("name", .str "Test User"),
               ("expiry_month", .str "12"), ("cvv", .str "123")]),
   none, none, none, none, none, none⟩

/-- A well-formed card request for region MY. -/
def cardReqDemoMY : CardRequest :=
  ⟨some (.num 1000), some (.str "MYR"), some (.str "MY"),
   some (.str "+60123450000"), some (.str "test@example.com"),
   some (.str "card"), some cardDemo,
   none, none, none, none, none, none⟩

/-- An Apple Pay request whose contact is supplied as the empty string. -/
def apReqEmptyContact : ApRequest :=
  ⟨some (.num 1000), some (.str "MYR"), some (.str "MY"),
   some (.str ""), some (.str "buyer@example.com")⟩

/-- A successful order payload. -/
def orderDemo : JsonVal :=
  .obj [("id", .str "order_abc"), ("amount", .num 1000),
        ("currency", .str "INR"), ("status", .str "created")]

/-- A gateway order-creation failure payload. -/
def orderErrDemo : JsonVal :=
  .obj [("error", .obj [("code", .str "BAD_REQUEST_ERROR"),
                        ("description", .str "The amount is invalid")])]

/-- A JSON payment body carrying a `next` redirect entry. -/
def redirectBodyDemo : JsonVal :=
  .obj [("razorpay_payment_id", .str "pay_9"),
        ("next", .arr [.obj [("action", .str "redirect"),
                             ("url", .str "https://x/y")]])]

/-- A JSON payment error payload without a `next` array. -/
def payErrBodyDemo : JsonVal :=
  .obj [("error", .obj [("code", .str "BAD_REQUEST_ERROR"),
                        ("description", .str "Payment failed")])]

/-- A terminal captured payment payload. -/
def capturedBodyDemo : JsonVal :=
  .obj [("razorpay_payment_id", .str "pay_1"), ("status", .str "captured")]

/-- A JSON payment-creation response around `capturedBodyDemo`. -/
def capturedRespDemo : RawPaymentResponse :=
  ⟨200, some "application/json", capturedBodyDemo, ""⟩

/-- A legacy HTML body whose meta refresh targets a payments URL with a
query string. -/
def htmlDemo : String :=
  "<html><head><meta http-equiv=\"refresh\" content=\"0;url=https://example.com/payments/pay_123?x=1\"></head></html>"

/-- An HTML error page containing no `url=` pattern. -/
def htmlNoUrlDemo : String := "<html><body>Server Error</body></html>"

/-- A demo Apple Pay request for region MY. -/
def apReqDemo : ApRequest :=
  ⟨some (.num 1000), some (.str "MYR"), some (.str "MY"),
   some (.str "+60123450000"), some (.str "buyer@example.com")⟩

/-! ## Helper lemmas about payload field lookups -/

theorem jsGet_ok_none (b : JsonVal) (k : String) (hb : b ≠ .null)
    (h : getField b k = none) : jsGet b k = .ok none := by
  cases b <;> simp_all [getField, jsGet]

/-- The `card` field of the express card payload. -/
theorem getField_expressCardPayload_card (req : CardRequest) (oid : Option JsonVal)
    (ey : JsonVal) :
    getField (expressCardPayload req oid ey) "card" =
      some (.obj (optField "number" (getField (req.card.getD .null) "number") ++
        optField "name" (getField (req.card.getD .null) "name") ++
        optField "expiry_month" (getField (req.card.getD .null) "expiry_month") ++
        [("expiry_year", ey)] ++
        optField "cvv" (getField (req.card.getD .null) "cvv"))) := by
  unfold expressCardPayload getField
  simp only [List.append_assoc]
  rw [lookupKV_optField_ne _ _ _ _ (by decide), lookupKV_optField_ne _ _ _ _ (by decide),
    lookupKV_optField_ne _ _ _ _ (by decide), lookupKV_optField_ne _ _ _ _ (by decide),
    lookupKV_optField_ne _ _ _ _ (by decide), lookupKV_optField_ne _ _ _ _ (by decide)]
  simp [lookupKV]

/-- The inner `expiry_year` field of the express card payload. -/
theorem getField_cardObj_expiry (numv namev monthv cvvv : Option JsonVal) (ey : JsonVal) :
    getField (.obj (optField "number" numv ++ optField "name" namev ++
      optField "expiry_month" monthv ++ [("expiry_year", ey)] ++
      optField "cvv" cvvv)) "expiry_year" = some ey := by
  unfold getField
  simp only [List.append_assoc]
  rw [lookupKV_optField_ne _ _ _ _ (by decide), lookupKV_optField_ne _ _ _ _ (by decide),
    lookupKV_optField_ne _ _ _ _ (by decide)]
  simp [lookupKV]

/-- The `card` field of the serverless card payload is the inbound card
field, verbatim (absent stays absent). -/
theorem getField_serverlessCardPayload_card (req : CardRequest) (oid : Option JsonVal) :
    getField (serverlessCardPayload req oid) "card" = req.card := by
  unfold serverlessCardPayload getField
  simp only [List.append_assoc]
  rw [lookupKV_optField_ne _ _ _ _ (by decide), lookupKV_optField_ne _ _ _ _ (by decide),
    lookupKV_optField_ne _ _ _ _ (by decide), lookupKV_optField_ne _ _ _ _ (by decide)]
  rw [lookupKV_optField_self]
  rw [lookupKV_optField_ne _ _ _ _ (by decide), lookupKV_optField_ne _ _ _ _ (by decide),
    lookupKV_optField_ne _ _ _ _ (by decide), lookupKV_optField_ne _ _ _ _ (by decide),
    lookupKV_optField_ne _ _ _ _ (by decide), lookupKV_optField_ne _ _ _ _ (by decide),
    lookupKV_optField_ne _ _ _ _ (by decide), lookupKV_truthyField_ne_nil _ _ _ (by decide)]

/-- The `contact` field of the express Apple Pay payload is the `||`
fallback of the inbound field. -/
theorem getField_expressApPayload_contact (req : ApRequest) (oid : Option JsonVal) :
    getField (expressApPayload req oid) "contact" =
      some (jsOr req.contact (.str "+60123456789")) := by
  unfold expressApPayload getField
  simp only [List.append_assoc]
  rw [lookupKV_optField_ne _ _ _ _ (by decide), lookupKV_optField_ne _ _ _ _ (by decide),
    lookupKV_optField_ne _ _ _ _ (by decide)]
  simp [lookupKV]

/-- The `email` field of the express Apple Pay payload is the `||`
fallback of the inbound field. -/
theorem getField_expressApPayload_email (req : ApRequest) (oid : Option JsonVal) :
    getField (expressApPayload req oid) "email" =
      some (jsOr req.email (.str "applepay@example.com")) := by
  unfold expressApPayload getField
  simp only [List.append_assoc]
  rw [lookupKV_optField_ne _ _ _ _ (by decide), lookupKV_optField_ne _ _ _ _ (by decide),
    lookupKV_optField_ne _ _ _ _ (by decide)]
  simp [lookupKV]

/-- The `contact` field of the serverless Apple Pay payload is the inbound
field, verbatim. -/
theorem getField_serverlessApPayload_contact (req : ApRequest) (oid : Option JsonVal) :
    getField (serverlessApPayload req oid) "contact" = req.contact := by
  unfold serverlessApPayload getField
  simp only [List.append_assoc]
  rw [lookupKV_optField_ne _ _ _ _ (by decide), lookupKV_optField_ne _ _ _ _ (by decide),
    lookupKV_optField_ne _ _ _ _ (by decide)]
  simp only [lookupKV, List.cons_append, List.append_eq, List.nil_append]
  rw [if_neg (by decide), if_neg (by decide)]
  rw [lookupKV_optField_self _ _ _ (lookupKV_optField_ne_nil _ _ _ (by decide))]

/-- The `email` field of the serverless Apple Pay payload is the inbound
field, verbatim. -/
theorem getField_serverlessApPayload_email (req : ApRequest) (oid : Option JsonVal) :
    getField (serverlessApPayload req oid) "email" = req.email := by
  unfold serverlessApPayload getField
  simp only [List.append_assoc]
  rw [lookupKV_optField_ne _ _ _ _ (by decide), lookupKV_optField_ne _ _ _ _ (by decide),
    lookupKV_optField_ne _ _ _ _ (by decide)]
  simp only [lookupKV, List.cons_append, List.append_eq, List.nil_append]
  rw [if_neg (by decide), if_neg (by decide)]
  rw [lookupKV_optField_ne _ _ _ _ (by decide)]
  rw [lookupKV_optField_self_nil]

end Razorpay

namespace Razorpay

/-! ## Claim C2 -/

/-- C2: for every order-creation response with a non-success HTTP status,
each orchestrator flow returns that gateway status code and payload
verbatim to the caller and never issues the payment-creation call; the
payment call is issued only after a successful order creation. -/
theorem claim_C2 (e : RazorpayEnv) (req : CardRequest) (reqA : ApRequest)
    (oResp : OrderResponse) (pResp : RawPaymentResponse)
    (h : respOk oResp.status = false) :
    ((expressCardFlow e req oResp pResp).paymentCalled = false ∧
      ((expressCardFlow e req oResp pResp).orderCalled = true →
        (expressCardFlow e req oResp pResp).out = ⟨oResp.status, oResp.body⟩)) ∧
    ((serverlessCardFlow e req oResp pResp).paymentCalled = false ∧
      ((serverlessCardFlow e req oResp pResp).orderCalled = true →
        (serverlessCardFlow e req oResp pResp).out = ⟨oResp.status, oResp.body⟩)) ∧
    ((expressApFlow e reqA oResp pResp).paymentCalled = false ∧
      ((expressApFlow e reqA oResp pResp).orderCalled = true →
        (expressApFlow e reqA oResp pResp).out = ⟨oResp.status, oResp.body⟩)) ∧
    ((serverlessApFlow e reqA oResp pResp).paymentCalled = false ∧
      ((serverlessApFlow e reqA oResp pResp).orderCalled = true →
        (serverlessApFlow e reqA oResp pResp).out = ⟨oResp.status, oResp.body⟩)) := by
  refine ⟨?_, ?_, ?_, ?_⟩
  · unfold expressCardFlow
    split
    · split
      · simp
      · simp [h]
    · simp
  · unfold serverlessCardFlow
    split
    · simp
    · simp [h]
  · unfold expressApFlow
    split
    · split
      · simp
      · simp [h]
    · simp
  · unfold serverlessApFlow
    split
    · simp
    · simp [h]

/-- Witness for C2: a concrete 400 order failure short-circuits the express
card flow, propagating the order error verbatim. -/
theorem claim_C2_witness :
    (expressCardFlow envDemo cardReqDemo ⟨400, orderErrDemo⟩ capturedRespDemo).paymentCalled = false ∧
    (expressCardFlow envDemo cardReqDemo ⟨400, orderErrDemo⟩ capturedRespDemo).out = ⟨400, orderErrDemo⟩ := by
  have hmain := claim_C2 envDemo cardReqDemo apReqDemo ⟨400, orderErrDemo⟩
    capturedRespDemo (by decide)
  exact ⟨hmain.1.1, hmain.1.2 (by decide)⟩

end Razorpay

namespace Razorpay

/-! ## Claim C10 -/

/-- C10: the express card validation checks only the presence of the
top-level card object; a request whose card object lacks `expiry_year`
passes validation, the order call is made, and then reading
`expiry_year.length` throws, so the caller receives the 500
`PAYMENT_FAILED` error (not a 400 validation error) with the payment call
never issued. -/
theorem claim_C10 (e : RazorpayEnv) (req : CardRequest) (oResp : OrderResponse)
    (pResp : RawPaymentResponse) (kvs : List (String × JsonVal))
    (c : RegionConfig) (oid : Option JsonVal)
    (hcard : req.card = some (.obj kvs))
    (hval : cardValid req = true)
    (hcfg : getConfigExpress e (jsKey req.country) = .ok c)
    (hord : respOk oResp.status = true)
    (hoid : jsGet oResp.body "id" = .ok oid)
    (hey : lookupKV kvs "expiry_year" = none) :
    (expressCardFlow e req oResp pResp).out.status = 500 ∧
    getField ((expressCardFlow e req oResp pResp).out.body) "error" =
      some (.obj [("code", .str "PAYMENT_FAILED"),
        ("description", .str "Cannot read properties of undefined (reading length)")]) ∧
    (expressCardFlow e req oResp pResp).orderCalled = true ∧
    (expressCardFlow e req oResp pResp).paymentCalled = false := by
  unfold expressCardFlow
  rw [hval, hcfg]
  simp only [if_true]
  rw [hord]
  simp only [if_true]
  rw [hoid, hcard]
  simp only [Option.getD_some, getField, hey, expiryShim]
  simp [paymentFailed, getField, lookupKV]

/-- Witness for C10: the concrete request whose card lacks `expiry_year`
reaches the shim and fails with 500 `PAYMENT_FAILED` after the order call. -/
theorem claim_C10_witness :
    (expressCardFlow envDemo cardReqNoExpiry ⟨200, orderDemo⟩ capturedRespDemo).out.status = 500 ∧
    (expressCardFlow envDemo cardReqNoExpiry ⟨200, orderDemo⟩ capturedRespDemo).orderCalled = true ∧
    (expressCardFlow envDemo cardReqNoExpiry ⟨200, orderDemo⟩ capturedRespDemo).paymentCalled = false := by
  have hmain := claim_C10 envDemo cardReqNoExpiry ⟨200, orderDemo⟩ capturedRespDemo
    [("number", .str "4111111111111111"), ("name", .str "Test User"),
     ("expiry_month", .str "12"), ("cvv", .str "123")]
    ⟨"rzp_live_in", "secret_in", "INR"⟩ (some (.str "order_abc"))
    rfl (by decide) rfl rfl rfl rfl
  exact ⟨hmain.1, hmain.2.2.1, hmain.2.2.2⟩

end Razorpay

namespace Razorpay

/-! ## Claim C3 -/

/-- C3 counterexample: the express resolver accepts region MY although its
key identifier is empty (the claim requires both identifier and secret to
be non-empty), and an express request for the unknown region FR is answered
with HTTP 500 through the catch-all, not with the claimed 400. -/
theorem claim_C3_counterexample :
    getConfigExpress envIdMissing "MY" = .ok ⟨"", "secret_my", "MYR"⟩ ∧
    (expressCardFlow envDemo cardReqFR ⟨200, orderDemo⟩ capturedRespDemo).out.status = 500 ∧
    (expressCardFlow envDemo cardReqFR ⟨200, orderDemo⟩ capturedRespDemo).orderCalled = false := by
  refine ⟨rfl, ?_, ?_⟩ <;> rfl

/-- C3 (amended): the serverless resolver succeeds exactly when the region
is known and both identifier and secret are non-empty, and its failure is a
400 with no gateway call; the express resolver requires only a known region
and a non-empty secret (an empty identifier passes), and its failure
surfaces as HTTP 500 `PAYMENT_FAILED` through the catch block, still before
any gateway call. -/
theorem claim_C3 (e : RazorpayEnv) (country : String) (req : CardRequest)
    (oResp : OrderResponse) (pResp : RawPaymentResponse) :
    (∀ c, lookupRegion e country = some c →
      ((resolveServerless e country = some c ↔ (c.keyId ≠ "" ∧ c.keySecret ≠ "")) ∧
       (getConfigExpress e country = .ok c ↔ c.keySecret ≠ ""))) ∧
    (lookupRegion e country = none →
      resolveServerless e country = none ∧
      getConfigExpress e country =
        .error ("Invalid or unconfigured country: " ++ country)) ∧
    (resolveServerless e (jsKey req.country) = none →
      (serverlessCardFlow e req oResp pResp).out.status = 400 ∧
      (serverlessCardFlow e req oResp pResp).orderCalled = false ∧
      (serverlessCardFlow e req oResp pResp).paymentCalled = false) ∧
    (∀ msg, cardValid req = true →
      getConfigExpress e (jsKey req.country) = .error msg →
      (expressCardFlow e req oResp pResp).out = paymentFailed msg ∧
      (expressCardFlow e req oResp pResp).out.status = 500 ∧
      (expressCardFlow e req oResp pResp).orderCalled = false ∧
      (expressCardFlow e req oResp pResp).paymentCalled = false) := by
  refine ⟨?_, ?_, ?_, ?_⟩
  · intro c hc
    constructor
    · unfold resolveServerless
      rw [hc]
      show (if c.keyId = "" ∨ c.keySecret = "" then none else some c) = some c ↔
        (c.keyId ≠ "" ∧ c.keySecret ≠ "")
      by_cases h1 : c.keyId = "" ∨ c.keySecret = ""
      · rw [if_pos h1]
        constructor
        · intro h2; cases h2
        · intro h2
          exact absurd h1 (by push_neg; exact h2)
      · rw [if_neg h1]
        push_neg at h1
        exact ⟨fun _ => h1, fun _ => rfl⟩
    · unfold getConfigExpress
      rw [hc]
      show (if c.keySecret = "" then
          Except.error ("Invalid or unconfigured country: " ++ country)
        else Except.ok c) = Except.ok c ↔ c.keySecret ≠ ""
      by_cases h1 : c.keySecret = ""
      · rw [if_pos h1]
        constructor
        · intro h2; cases h2
        · intro h2; exact absurd h1 h2
      · rw [if_neg h1]
        exact ⟨fun _ => h1, fun _ => rfl⟩
  · intro hnone
    unfold resolveServerless getConfigExpress
    rw [hnone]
    exact ⟨rfl, rfl⟩
  · intro hnone
    unfold serverlessCardFlow
    rw [hnone]
    exact ⟨rfl, rfl, rfl⟩
  · intro msg hval hcfg
    unfold expressCardFlow
    rw [hval, hcfg]
    exact ⟨rfl, rfl, rfl, rfl⟩

/-- Witness for C3 at concrete inputs: a configured region resolves on both
sides, region MY with an empty identifier is rejected by the serverless
resolver with a 400 and no order call, and the unknown region FR makes the
express flow fail with a 500 before any order call. -/
theorem claim_C3_witness :
    resolveServerless envDemo "IN" = some ⟨"rzp_live_in", "secret_in", "INR"⟩ ∧
    (serverlessCardFlow envIdMissing cardReqDemoMY ⟨200, orderDemo⟩ capturedRespDemo).out.status = 400 ∧
    (serverlessCardFlow envIdMissing cardReqDemoMY ⟨200, orderDemo⟩ capturedRespDemo).orderCalled = false ∧
    (expressCardFlow envDemo cardReqFR ⟨200, orderDemo⟩ capturedRespDemo).out =
      paymentFailed "Invalid or unconfigured country: FR" := by
  have h1 := (claim_C3 envDemo "IN" cardReqDemo ⟨200, orderDemo⟩ capturedRespDemo).1
    ⟨"rzp_live_in", "secret_in", "INR"⟩ rfl
  have h2 := (claim_C3 envIdMissing "MY" cardReqDemoMY ⟨200, orderDemo⟩ capturedRespDemo).2.2.1
    rfl
  have h3 := ((claim_C3 envDemo "FR" cardReqFR ⟨200, orderDemo⟩ capturedRespDemo).2.2.2
    "Invalid or unconfigured country: FR" (by decide) rfl).1
  exact ⟨h1.1.2 (by decide), h2.1, h2.2.1, h3⟩

end Razorpay

namespace Razorpay

/-! ## Claim C1 -/

/-- C1 counterexample: a JSON payment-creation response with status 400 and
a body carrying a `next` redirect entry with a non-empty url is NOT turned
into a redirect-required reply by the express card handler: the raw status
400 and payload come back, with no `authentication` object, although the
redirect entry is present in the body. -/
theorem claim_C1_counterexample :
    (expressCardNormalize orderDemo ⟨400, some "application/json", redirectBodyDemo, ""⟩).status = 400 ∧
    getField (expressCardNormalize orderDemo ⟨400, some "application/json", redirectBodyDemo, ""⟩).body
      "authentication" = none ∧
    findRedirectAction [.obj [("action", .str "redirect"), ("url", .str "https://x/y")]] =
      .ok (some (.obj [("action", .str "redirect"), ("url", .str "https://x/y")])) := by
  exact ⟨rfl, rfl, rfl⟩

/-- C1 (amended): for every JSON payment-creation response whose body has a
`next` entry with action `redirect` and a truthy url, the serverless card
handler, the serverless Apple Pay handler and the express Apple Pay handler
each reply 200 with their redirect shape carrying that url and the body's
`razorpay_payment_id`, regardless of the HTTP status; the express card
handler's JSON branch performs no redirect extraction and, on a non-success
status, returns the raw status and payload instead. -/
theorem claim_C1 (orderData body : JsonVal) (st : Nat) (ct : Option String)
    (txt : String) (xs : List JsonVal) (ra u : JsonVal)
    (hct : ctIsJson ct = true)
    (hnext : getField body "next" = some (.arr xs))
    (hfind : findRedirectAction xs = .ok (some ra))
    (hurl : getField ra "url" = some u)
    (htru : truthy u = true) :
    serverlessCardNormalize ⟨st, ct, body, txt⟩ =
      ⟨200, .obj (optField "id" (getField body "razorpay_payment_id") ++
        [("authentication", .obj [("authentication_url", u)])])⟩ ∧
    serverlessApNormalize ⟨st, ct, body, txt⟩ =
      ⟨200, .obj (optField "id" (getField body "razorpay_payment_id") ++
        [("apple_pay_url", u), ("requires_apple_pay", .bool true)])⟩ ∧
    expressApNormalize orderData ⟨st, ct, body, txt⟩ =
      ⟨200, .obj (optField "id" (getField body "razorpay_payment_id") ++
        [("status", .str "created")] ++
        optField "order_id" (getField orderData "id") ++
        [("apple_pay_url", u), ("requires_apple_pay", .bool true),
         ("message", .str "Redirect user to apple_pay_url to complete payment")])⟩ ∧
    (respOk st = false →
      expressCardNormalize orderData ⟨st, ct, body, txt⟩ = ⟨st, body⟩) := by
  have hjs : jsGet body "next" = .ok (some (.arr xs)) :=
    jsGet_of_getField body "next" (.arr xs) hnext
  refine ⟨?_, ?_, ?_, ?_⟩
  · unfold serverlessCardNormalize
    simp only [hct, if_true, hjs, hfind, hurl, truthyO, htru, Option.getD_some]
  · unfold serverlessApNormalize
    simp only [hct, if_true, hjs, hfind, hurl, truthyO, htru, Option.getD_some]
  · unfold expressApNormalize
    simp only [hct, if_true, hjs, hfind, hurl, truthyO, htru, Option.getD_some]
  · intro hbad
    unfold expressCardNormalize
    simp only [hct, if_true, hbad]
    simp

/-- Witness for C1 at the concrete redirect-bearing JSON body with a 402
status. -/
theorem claim_C1_witness :
    serverlessCardNormalize ⟨402, some "application/json", redirectBodyDemo, ""⟩ =
      ⟨200, .obj [("id", .str "pay_9"),
        ("authentication", .obj [("authentication_url", .str "https://x/y")])]⟩ ∧
    serverlessApNormalize ⟨402, some "application/json", redirectBodyDemo, ""⟩ =
      ⟨200, .obj [("id", .str "pay_9"),
        ("apple_pay_url", .str "https://x/y"), ("requires_apple_pay", .bool true)]⟩ := by
  have hmain := claim_C1 orderDemo redirectBodyDemo 402 (some "application/json") ""
    [.obj [("action", .str "redirect"), ("url", .str "https://x/y")]]
    (.obj [("action", .str "redirect"), ("url", .str "https://x/y")])
    (.str "https://x/y") rfl rfl rfl rfl rfl
  exact ⟨hmain.1, hmain.2.1⟩

end Razorpay

namespace Razorpay

/-! ## Claim C4 -/

/-- C4 counterexample: a JSON payment-creation response with status 400, an
error payload and no extractable redirect is answered by the serverless
card handler with HTTP 200 (carrying the gateway payload as body), not with
the gateway's original 400 status. -/
theorem claim_C4_counterexample :
    (serverlessCardNormalize ⟨400, some "application/json", payErrBodyDemo, ""⟩).status = 200 ∧
    (serverlessCardNormalize ⟨400, some "application/json", payErrBodyDemo, ""⟩).body =
      payErrBodyDemo ∧
    getField payErrBodyDemo "next" = none := by
  exact ⟨rfl, rfl, rfl⟩

/-- C4 (amended): for a JSON payment-creation response with a non-success
status and no extractable redirect, the express handlers return the
gateway's status code and payload verbatim; the serverless handlers perform
no status check on JSON responses and reply HTTP 200 with the gateway's
payload verbatim as body.  (Redirect extraction, where implemented, takes
precedence over the status check; that part is the subject of C1.) -/
theorem claim_C4 (orderData body : JsonVal) (st : Nat) (ct : Option String)
    (txt : String)
    (hct : ctIsJson ct = true)
    (hnn : body ≠ .null)
    (hnored : getField body "next" = none)
    (hbad : respOk st = false) :
    expressCardNormalize orderData ⟨st, ct, body, txt⟩ = ⟨st, body⟩ ∧
    expressApNormalize orderData ⟨st, ct, body, txt⟩ = ⟨st, body⟩ ∧
    serverlessCardNormalize ⟨st, ct, body, txt⟩ = ⟨200, body⟩ ∧
    serverlessApNormalize ⟨st, ct, body, txt⟩ = ⟨200, body⟩ := by
  have hjs : jsGet body "next" = .ok none := jsGet_ok_none body "next" hnn hnored
  refine ⟨?_, ?_, ?_, ?_⟩
  · unfold expressCardNormalize
    simp only [hct, if_true, hbad]
    simp
  · unfold expressApNormalize
    simp only [hct, if_true, hjs, hbad]
    simp
  · unfold serverlessCardNormalize
    simp only [hct, if_true, hjs]
  · unfold serverlessApNormalize
    simp only [hct, if_true, hjs]

/-- Witness for C4 at the concrete 400 JSON error payload. -/
theorem claim_C4_witness :
    expressCardNormalize orderDemo ⟨400, some "application/json", payErrBodyDemo, ""⟩ =
      ⟨400, payErrBodyDemo⟩ ∧
    serverlessCardNormalize ⟨400, some "application/json", payErrBodyDemo, ""⟩ =
      ⟨200, payErrBodyDemo⟩ := by
  have hmain := claim_C4 orderDemo payErrBodyDemo 400 (some "application/json") ""
    rfl (by intro h; cases h) rfl rfl
  exact ⟨hmain.1, hmain.2.2.1⟩

end Razorpay

namespace Razorpay

/-! ## Claim C5 -/

/-- C5 counterexample: the serverless card handler forwards an inbound card
with the two-digit expiry year `27` to the gateway unchanged (the claim
requires every orchestrator to turn it into `2027`). -/
theorem claim_C5_counterexample :
    getField (payloadOf (serverlessCardFlow envDemo cardReqDemo ⟨200, orderDemo⟩
      capturedRespDemo)) "card" = some cardDemo ∧
    getField cardDemo "expiry_year" = some (.str "27") ∧
    (serverlessCardFlow envDemo cardReqDemo ⟨200, orderDemo⟩ capturedRespDemo).paymentCalled
      = true := by
  exact ⟨rfl, rfl, rfl⟩

/-- C5 (amended): the express card handler prefixes `20` to a two-character
expiry year (any other length passes through unchanged) before building the
payment payload; the serverless card handler applies no such shim and
forwards the inbound card object verbatim. -/
theorem claim_C5 (e : RazorpayEnv) (req : CardRequest) (oResp : OrderResponse)
    (pResp : RawPaymentResponse) (s : String) (kvs : List (String × JsonVal))
    (c : RegionConfig) (oid : Option JsonVal) (nstr : String)
    (hval : cardValid req = true)
    (hcfg : getConfigExpress e (jsKey req.country) = .ok c)
    (hord : respOk oResp.status = true)
    (hoid : jsGet oResp.body "id" = .ok oid)
    (hcard : req.card = some (.obj kvs))
    (hey : lookupKV kvs "expiry_year" = some (.str s))
    (hnum : lookupKV kvs "number" = some (.str nstr)) :
    getField ((getField (payloadOf (expressCardFlow e req oResp pResp)) "card").getD .null)
        "expiry_year" = some (.str (if s.length = 2 then "20" ++ s else s)) ∧
    (∀ c2, resolveServerless e (jsKey req.country) = some c2 →
      getField (payloadOf (serverlessCardFlow e req oResp pResp)) "card" = req.card) := by
  constructor
  · unfold expressCardFlow
    rw [hval, hcfg]
    simp only [if_true]
    rw [hord]
    simp only [if_true]
    rw [hoid, hcard]
    simp only [Option.getD_some]
    have h1 : getField (JsonVal.obj kvs) "expiry_year" = some (.str s) := by
      simp [getField, hey]
    have h2 : getField (JsonVal.obj kvs) "number" = some (.str nstr) := by
      simp [getField, hnum]
    rw [h1, h2]
    simp only [expiryShim, cardNumberCheck]
    simp only [payloadOf, Option.getD_some]
    rw [getField_expressCardPayload_card]
    simp only [Option.getD_some]
    rw [hcard]
    simp only [Option.getD_some]
    exact getField_cardObj_expiry _ _ _ _ _
  · intro c2 hres
    unfold serverlessCardFlow
    rw [hres, hord]
    simp only [if_true]
    rw [hoid]
    simp only [payloadOf, Option.getD_some]
    exact getField_serverlessCardPayload_card req oid

/-- Witness for C5: the concrete request with expiry year `27` produces
`2027` on the express wire payload and `27` on the serverless one. -/
theorem claim_C5_witness :
    getField ((getField (payloadOf (expressCardFlow envDemo cardReqDemo ⟨200, orderDemo⟩
      capturedRespDemo)) "card").getD .null) "expiry_year" = some (.str "2027") ∧
    getField (payloadOf (serverlessCardFlow envDemo cardReqDemo ⟨200, orderDemo⟩
      capturedRespDemo)) "card" = cardReqDemo.card := by
  have hmain := claim_C5 envDemo cardReqDemo ⟨200, orderDemo⟩ capturedRespDemo "27"
    [("number", .str "4111111111111111"), ("name", .str "Test User"),
     ("expiry_month", .str "12"), ("expiry_year", .str "27"), ("cvv", .str "123")]
    ⟨"rzp_live_in", "secret_in", "INR"⟩ (some (.str "order_abc")) "4111111111111111"
    (by decide) rfl rfl rfl rfl rfl rfl
  exact ⟨hmain.1, hmain.2 ⟨"rzp_live_in", "secret_in", "INR"⟩ rfl⟩

end Razorpay

namespace Razorpay

/-! ## Claim C6 -/

/-- C6 counterexample: on the specification's own example shape
(`url=https://example.com/payments/pay_123?x=1` inside an HTML body), the
express card handler extracts the id `pay_123?x=1` — the `[^/]+` capture
does not stop at the query string, so the id is NOT `pay_123` — and the
serverless card handler, which only looks for a `razorpay_payment_id` key
pattern, answers with the sentinel `unknown` instead of `pay_123`. -/
theorem claim_C6_counterexample :
    getField (expressCardNormalize orderDemo ⟨200, some "text/html", .null, htmlDemo⟩).body "id" =
      some (.str "pay_123?x=1") ∧
    getField (serverlessCardNormalize ⟨200, some "text/html", .null, htmlDemo⟩).body "id" =
      some (.str "unknown") ∧
    matchUrlS htmlDemo = some "https://example.com/payments/pay_123?x=1" := by
  exact ⟨rfl, rfl, rfl⟩

/-- C6 (amended): for a non-JSON payment-creation response whose body
matches the `url=` pattern, the express card handler replies 200 with the
extracted url and, as payment id, the maximal run of non-slash characters
after `payments/` in that url (which keeps any query string) or `null` when
no such segment exists; the serverless card handler needs the url pattern
to be double-quote terminated and takes the id solely from a
`razorpay_payment_id[=:]` pattern in the document, with sentinel `unknown`
when that is absent. -/
theorem claim_C6 (orderData b : JsonVal) (st : Nat) (ct : Option String)
    (txt u : String)
    (hct : ctIsJson ct = false) :
    (matchUrlS txt = some u →
      expressCardNormalize orderData ⟨st, ct, b, txt⟩ =
        ⟨200, .obj ([("id", (matchPaymentsIdS u).elim JsonVal.null JsonVal.str),
          ("status", .str "authorized")] ++
          optField "order_id" (getField orderData "id") ++
          [("authentication", .obj [("authentication_url", .str u)]),
           ("requires_3ds", .bool true)])⟩) ∧
    (matchUrlQuotedS txt = some u →
      serverlessCardNormalize ⟨st, ct, b, txt⟩ =
        ⟨200, .obj [("id", (matchRzpIdS txt).elim (JsonVal.str "unknown") JsonVal.str),
          ("authentication", .obj [("authentication_url", .str u)])]⟩) := by
  constructor
  · intro hurl
    unfold expressCardNormalize
    simp only [hct, Bool.false_eq_true, if_false, hurl]
    cases hpid : matchPaymentsIdS u <;> simp [hpid]
  · intro hurl
    unfold serverlessCardNormalize
    simp only [hct, Bool.false_eq_true, if_false, hurl]
    cases hpid : matchRzpIdS txt <;> simp [hpid]

/-- Witness for C6 at the concrete HTML body: the express handler id keeps
the query string; the serverless handler falls back to `unknown`. -/
theorem claim_C6_witness :
    expressCardNormalize orderDemo ⟨200, some "text/html", .null, htmlDemo⟩ =
      ⟨200, .obj [("id", .str "pay_123?x=1"), ("status", .str "authorized"),
        ("order_id", .str "order_abc"),
        ("authentication", .obj [("authentication_url",
          .str "https://example.com/payments/pay_123?x=1")]),
        ("requires_3ds", .bool true)]⟩ ∧
    serverlessCardNormalize ⟨200, some "text/html", .null, htmlDemo⟩ =
      ⟨200, .obj [("id", .str "unknown"),
        ("authentication", .obj [("authentication_url",
          .str "https://example.com/payments/pay_123?x=1")])]⟩ := by
  have hmain := claim_C6 orderDemo .null 200 (some "text/html") htmlDemo
    "https://example.com/payments/pay_123?x=1" rfl
  exact ⟨hmain.1 rfl, hmain.2 rfl⟩

end Razorpay

namespace Razorpay

/-! ## Claim C7 -/

/-- C7 counterexample: a non-JSON 404 response with no `url=` substring is
answered by the serverless card handler with a fixed HTTP 500 and a
constant error message — neither the original 404 status nor any truncated
body excerpt is carried, contrary to the claim. -/
theorem claim_C7_counterexample :
    serverlessCardNormalize ⟨404, some "text/html", .null, htmlNoUrlDemo⟩ =
      ⟨500, .obj [("error", .obj
        [("description", .str "Failed to parse payment response")])]⟩ ∧
    containsSeq urlPat htmlNoUrlDemo.toList = false := by
  exact ⟨rfl, rfl⟩

/-- C7 (amended): for a non-JSON payment-creation response containing no
`url=` substring, the express handlers reply with the response's original
status and a wrapped error carrying the body truncated to 200 characters
(within the claimed 200 to 500 window); the serverless handlers instead
reply with a fixed 500 and a constant message, carrying neither the
original status nor any body excerpt. -/
theorem claim_C7 (orderData b : JsonVal) (st : Nat) (ct : Option String)
    (txt : String)
    (hct : ctIsJson ct = false)
    (hnourl : containsSeq urlPat txt.toList = false) :
    expressCardNormalize orderData ⟨st, ct, b, txt⟩ =
      ⟨st, .obj [("error", .obj [("code", .str "INVALID_RESPONSE"),
        ("description", .str "Received HTML response but could not extract authentication URL"),
        ("details", .str (strTake txt 200))])]⟩ ∧
    expressApNormalize orderData ⟨st, ct, b, txt⟩ =
      ⟨st, .obj [("error", .obj [("code", .str "INVALID_RESPONSE"),
        ("description", .str "Received HTML response but could not extract Apple Pay URL"),
        ("details", .str (strTake txt 200))])]⟩ ∧
    (strTake txt 200).length ≤ 500 ∧
    serverlessCardNormalize ⟨st, ct, b, txt⟩ =
      ⟨500, .obj [("error", .obj
        [("description", .str "Failed to parse payment response")])]⟩ ∧
    serverlessApNormalize ⟨st, ct, b, txt⟩ =
      ⟨500, .obj [("error", .obj
        [("description", .str "Failed to parse Apple Pay response")])]⟩ := by
  have hu : matchUrlS txt = none := by
    unfold matchUrlS
    rw [scanUrl_eq_none_of_not_contains txt.toList hnourl]
    rfl
  have huq : matchUrlQuotedS txt = none := by
    unfold matchUrlQuotedS
    rw [scanUrlQuoted_eq_none_of_not_contains txt.toList hnourl]
    rfl
  refine ⟨?_, ?_, ?_, ?_, ?_⟩
  · unfold expressCardNormalize
    simp only [hct, Bool.false_eq_true, if_false, hu]
  · unfold expressApNormalize
    simp only [hct, Bool.false_eq_true, if_false, hu]
  · exact le_trans (strTake_length_le txt 200) (by norm_num)
  · unfold serverlessCardNormalize
    simp only [hct, Bool.false_eq_true, if_false, huq]
  · unfold serverlessApNormalize
    simp only [hct, Bool.false_eq_true, if_false, huq]

/-- Witness for C7 at the concrete url-free HTML body with status 404. -/
theorem claim_C7_witness :
    expressCardNormalize orderDemo ⟨404, some "text/html", .null, htmlNoUrlDemo⟩ =
      ⟨404, .obj [("error", .obj [("code", .str "INVALID_RESPONSE"),
        ("description", .str "Received HTML response but could not extract authentication URL"),
        ("details", .str htmlNoUrlDemo)])]⟩ ∧
    serverlessApNormalize ⟨404, some "text/html", .null, htmlNoUrlDemo⟩ =
      ⟨500, .obj [("error", .obj
        [("description", .str "Failed to parse Apple Pay response")])]⟩ := by
  have hmain := claim_C7 orderDemo .null 404 (some "text/html") htmlNoUrlDemo rfl rfl
  exact ⟨hmain.1, hmain.2.2.2.2⟩

end Razorpay

namespace Razorpay

/-! ## Claim C8 -/

/-- C8 counterexample: the express Apple Pay flow replaces the
caller-supplied empty-string contact with the placeholder default — a
caller-supplied value IS overwritten, contrary to the claim. -/
theorem claim_C8_counterexample :
    apReqEmptyContact.contact = some (.str "") ∧
    getField (payloadOf (expressApFlow envDemo apReqEmptyContact ⟨200, orderDemo⟩
      capturedRespDemo)) "contact" = some (.str "+60123456789") := by
  exact ⟨rfl, rfl⟩

/-- C8 (amended): in the express Apple Pay flow the placeholder defaults
are substituted through `||`, i.e. whenever the caller value is absent OR
falsy (so an empty string is overwritten); in the serverless Apple Pay flow
no defaults exist at all: the caller values are forwarded verbatim and an
absent field stays absent. -/
theorem claim_C8 (e : RazorpayEnv) (req : ApRequest) (oResp : OrderResponse)
    (pResp : RawPaymentResponse) (c c2 : RegionConfig) (oid : Option JsonVal)
    (hval : apValid req = true)
    (hcfg : getConfigExpress e (jsKey req.country) = .ok c)
    (hres : resolveServerless e (jsKey req.country) = some c2)
    (hord : respOk oResp.status = true)
    (hoid : jsGet oResp.body "id" = .ok oid) :
    getField (payloadOf (expressApFlow e req oResp pResp)) "contact" =
      some (jsOr req.contact (.str "+60123456789")) ∧
    getField (payloadOf (expressApFlow e req oResp pResp)) "email" =
      some (jsOr req.email (.str "applepay@example.com")) ∧
    getField (payloadOf (serverlessApFlow e req oResp pResp)) "contact" = req.contact ∧
    getField (payloadOf (serverlessApFlow e req oResp pResp)) "email" = req.email := by
  have hex : payloadOf (expressApFlow e req oResp pResp) = expressApPayload req oid := by
    unfold expressApFlow
    rw [hval, hcfg]
    simp only [if_true]
    rw [hord]
    simp only [if_true]
    rw [hoid]
    rfl
  have hsl : payloadOf (serverlessApFlow e req oResp pResp) = serverlessApPayload req oid := by
    unfold serverlessApFlow
    rw [hres, hord]
    simp only [if_true]
    rw [hoid]
    rfl
  rw [hex, hsl]
  exact ⟨getField_expressApPayload_contact req oid, getField_expressApPayload_email req oid,
    getField_serverlessApPayload_contact req oid, getField_serverlessApPayload_email req oid⟩

/-- Witness for C8: with an empty-string contact, the express payload holds
the placeholder while the serverless payload holds the empty string. -/
theorem claim_C8_witness :
    getField (payloadOf (expressApFlow envDemo apReqEmptyContact ⟨200, orderDemo⟩
      capturedRespDemo)) "contact" = some (.str "+60123456789") ∧
    getField (payloadOf (serverlessApFlow envDemo apReqEmptyContact ⟨200, orderDemo⟩
      capturedRespDemo)) "contact" = some (.str "") := by
  have hmain := claim_C8 envDemo apReqEmptyContact ⟨200, orderDemo⟩ capturedRespDemo
    ⟨"rzp_live_my", "secret_my", "MYR"⟩ ⟨"rzp_live_my", "secret_my", "MYR"⟩
    (some (.str "order_abc")) (by decide) rfl rfl rfl rfl
  exact ⟨hmain.1, hmain.2.2.1⟩

end Razorpay

namespace Razorpay

/-! ## Claim C9 -/

/-- C9 counterexample: in the serverless card flow, a completed JSON
payment result is returned alone — the reply carries no `order` object for
the order (`order_abc`) created in step 1, contrary to the claim. -/
theorem claim_C9_counterexample :
    (serverlessCardFlow envDemo cardReqDemo ⟨200, orderDemo⟩ capturedRespDemo).out =
      ⟨200, capturedBodyDemo⟩ ∧
    getField capturedBodyDemo "order" = none ∧
    getField orderDemo "id" = some (.str "order_abc") := by
  exact ⟨rfl, rfl, rfl⟩

/-- C9 (amended): on a completed JSON payment result with a success status,
the express card handler replies 200 with the payment payload spread-merged
with the order payload (the `order` field holds the full order result and
every other payment field is preserved); the serverless card handler
replies 200 with the payment payload alone, with no order merge. -/
theorem claim_C9 (orderData : JsonVal) (kvs : List (String × JsonVal))
    (st : Nat) (ct : Option String) (txt : String)
    (hct : ctIsJson ct = true)
    (hok : respOk st = true)
    (hnonext : lookupKV kvs "next" = none) :
    expressCardNormalize orderData ⟨st, ct, .obj kvs, txt⟩ =
      ⟨200, spreadSet (.obj kvs) "order" orderData⟩ ∧
    getField (spreadSet (.obj kvs) "order" orderData) "order" = some orderData ∧
    (∀ k v, k ≠ "order" → lookupKV kvs k = some v →
      getField (spreadSet (.obj kvs) "order" orderData) k = some v) ∧
    serverlessCardNormalize ⟨st, ct, .obj kvs, txt⟩ = ⟨200, .obj kvs⟩ := by
  refine ⟨?_, ?_, ?_, ?_⟩
  · unfold expressCardNormalize
    simp only [hct, if_true, hok, jsGet]
  · exact getField_spreadSet_self _ _ _
  · intro k v hk hkv
    rw [getField_spreadSet_ne (.obj kvs) "order" k orderData hk kvs rfl]
    simp [getField, hkv]
  · unfold serverlessCardNormalize
    simp only [hct, if_true, jsGet, hnonext]

/-- Witness for C9 at the concrete captured payment and order `order_abc`:
the express reply keeps `status: captured` and gains the order object; the
serverless reply is the bare payment payload. -/
theorem claim_C9_witness :
    expressCardNormalize orderDemo ⟨200, some "application/json", capturedBodyDemo, ""⟩ =
      ⟨200, spreadSet capturedBodyDemo "order" orderDemo⟩ ∧
    getField (spreadSet capturedBodyDemo "order" orderDemo) "order" = some orderDemo ∧
    getField (spreadSet capturedBodyDemo "order" orderDemo) "status" = some (.str "captured") ∧
    serverlessCardNormalize ⟨200, some "application/json", capturedBodyDemo, ""⟩ =
      ⟨200, capturedBodyDemo⟩ := by
  have hmain := claim_C9 orderDemo
    [("razorpay_payment_id", .str "pay_1"), ("status", .str "captured")]
    200 (some "application/json") "" rfl rfl rfl
  exact ⟨hmain.1, hmain.2.1,
    hmain.2.2.1 "status" (.str "captured") (by decide) rfl, hmain.2.2.2⟩

end Razorpay
